import Mathlib

/-!
Verification development for the hybrid clinical genomics database.

The repository federates queries over a relational store (patients, samples)
and a document store (one findings document per sample, with nested arrays
of variants, copy-number variants and structural variants).  This file gives
a shallow embedding of the query core:

* `src/app/mysql_queries.py` — the demographic resolver
  (`get_sample_ids_by_patient_details`), modelled over an explicit list of
  patient and sample rows, with calendar dates as year/month/day triples
  compared chronologically (which for valid dates is the lexicographic
  order used here).
* `src/app/mongo_queries.py` — the finding queries, modelled as aggregation
  pipelines over an explicit list of sample documents.  Document-level
  `$match` on an array path follows MongoDB semantics: each operator in the
  condition may be satisfied by a *different* array element; after `$unwind`
  the path denotes the single unwound element.  Python falsiness of filter
  arguments (`if gene:` treats `""` and `None` alike; `if sample_ids:`
  treats `[]` and `None` alike) is modelled explicitly.
* `src/app/api.py` — the HTTP-facing orchestration (`get_variants_by_gene`,
  `combined_query`), with an instrumentation trace counting how many times
  each store is invoked.

Failure channels: in the source every query function acquires the
collection *outside* its `try` block, so a connection failure propagates as
an exception, while an error raised by query execution is caught and turned
into the function's empty return value.  `MongoState` injects the three
relevant situations and `Except Unit` is the exception channel.
-/

/-- A calendar date as stored in the relational database.  Python `date`
objects compare chronologically, which coincides with the lexicographic
order on (year, month, day) for valid dates. -/
structure PDate where
  year : Nat
  month : Nat
  day : Nat
deriving DecidableEq, Repr

/-- Gregorian leap-year rule, as used by Python's `datetime.date`. -/
def isLeapYear (y : Nat) : Bool :=
  y % 4 = 0 && (y % 100 ≠ 0 || y % 400 = 0)

/-- Number of days in a month of a given year. -/
def daysInMonth (y m : Nat) : Nat :=
  if m = 2 then (if isLeapYear y then 29 else 28)
  else if m = 4 || m = 6 || m = 9 || m = 11 then 30
  else 31

/-- Validity of a year/month/day triple as a real calendar date. -/
def isValidPDate (d : PDate) : Bool :=
  1 ≤ d.month && d.month ≤ 12 && 1 ≤ d.day && d.day ≤ daysInMonth d.year d.month

/-- Chronological order on dates (lexicographic on year, month, day). -/
def pdateLe (a b : PDate) : Bool :=
  a.year < b.year || (a.year = b.year &&
    (a.month < b.month || (a.month = b.month && a.day ≤ b.day)))

/-- `date.replace(year=y)` from Python: keep month and day, change the year.
(The source relies on the call not raising; the theorems below carry
validity hypotheses that ensure this.) -/
def replaceYear (d : PDate) (y : Nat) : PDate :=
  ⟨y, d.month, d.day⟩

/-- The calendar successor of a date — "one day later". -/
def nextDay (d : PDate) : PDate :=
  if d.day < daysInMonth d.year d.month then ⟨d.year, d.month, d.day + 1⟩
  else if d.month < 12 then ⟨d.year, d.month + 1, 1⟩
  else ⟨d.year + 1, 1, 1⟩

/-- A row of the `patients` table (only the columns the resolver reads). -/
structure PatientRow where
  patient_id : Int
  date_of_birth : PDate
  sex : String
deriving DecidableEq, Repr

/-- A row of the `samples` table (only the columns the resolver reads). -/
structure SampleRow where
  sample_id : Int
  patient_id : Int
deriving DecidableEq, Repr

/-- The relational store contents visible to the demographic resolver. -/
structure RelDB where
  patients : List PatientRow
  samples : List SampleRow
deriving DecidableEq, Repr

/-- Python truthiness of an optional string filter argument: `if s:` is
false both for `None` and for the empty string. -/
def strFilterActive : Option String → Bool
  | none => false
  | some s => !(s = "")

/-- `get_sample_ids_by_patient_details` from `src/app/mysql_queries.py`:
joins `samples` to `patients` on `patient_id`, applies the demographic
conditions built from the supplied filters, and projects `sample_id`.
`age_min` contributes `date_of_birth <= today.replace(year=today.year-age_min)`,
`age_max` contributes `date_of_birth >= today.replace(year=today.year-age_max-1)`,
and a truthy `sex` contributes `sex = %s`. -/
def get_sample_ids_by_patient_details (db : RelDB) (today : PDate)
    (age_min age_max : Option Nat) (sex : Option String) : List Int :=
  db.samples.flatMap (fun s =>
    (db.patients.filter (fun p =>
      decide (p.patient_id = s.patient_id)
      && (match age_min with
          | some a => pdateLe p.date_of_birth (replaceYear today (today.year - a))
          | none => true)
      && (match age_max with
          | some b => pdateLe (replaceYear today (today.year - b - 1)) p.date_of_birth
          | none => true)
      && (match sex with
          | some sx => if sx = "" then true else decide (p.sex = sx)
          | none => true))).map (fun _ => s.sample_id))

/-- A single element of a document's `variants` array (the fields the
queries filter or group on, plus an opaque payload standing for the rest
of the element). -/
structure Variant where
  gene : String
  clinical_significance : String
  chromosome : String
  position : Int
  variant_type : String
  payload : Nat
deriving DecidableEq, Repr

/-- An element of `copy_number_variants`: the queries only read the
`genes_affected` list. -/
structure CNVElem where
  genes_affected : List String
  payload : Nat
deriving DecidableEq, Repr

/-- An element of `structural_variants`: the queries only read the
`genes_affected` list. -/
structure SVElem where
  genes_affected : List String
  payload : Nat
deriving DecidableEq, Repr

/-- One document of the `variants` collection: per-sample findings keyed by
the document-native `sample_id` and the relational join keys.  An array
field may be absent from a document (`none`), which MongoDB treats
differently from an empty array in `$size`. -/
structure SampleDoc where
  sample_id : String
  mysql_sample_id : Int
  mysql_patient_id : Int
  reference_genome : String
  variants : Option (List Variant)
  copy_number_variants : Option (List CNVElem)
  structural_variants : Option (List SVElem)
deriving DecidableEq, Repr

/-- Reading an array field path: a missing array behaves like the empty
list for `$match` existence tests and for `$unwind` (which drops the
document when the field is missing or empty). -/
def arrGetD {α : Type} (o : Option (List α)) : List α := o.getD []

/-- Document-level `$match` on `variants.<field>`: true when *some* array
element satisfies the single-operator condition. -/
def docAnyVariant (d : SampleDoc) (p : Variant → Bool) : Bool :=
  (arrGetD d.variants).any p

/-- Document-level `$match` on `copy_number_variants.genes_affected`. -/
def docAnyCNV (d : SampleDoc) (p : CNVElem → Bool) : Bool :=
  (arrGetD d.copy_number_variants).any p

/-- Document-level `$match` on `structural_variants.genes_affected`. -/
def docAnySV (d : SampleDoc) (p : SVElem → Bool) : Bool :=
  (arrGetD d.structural_variants).any p

/-- The `$project` output of the variant queries.  `reference_genome` is an
`Option` because only `find_variants_by_multiple_filters` lists it in its
projection; the other variant queries leave the field out of the output
document (`none`). -/
structure VariantRecord where
  sample_id : String
  mysql_sample_id : Int
  mysql_patient_id : Int
  reference_genome : Option String
  variant : Variant
deriving DecidableEq, Repr

/-- The `$project` output of `find_copy_number_variants_by_gene`. -/
structure CNVRecord where
  sample_id : String
  mysql_sample_id : Int
  mysql_patient_id : Int
  cnv : CNVElem
deriving DecidableEq, Repr

/-- The `$project` output of `find_structural_variants_by_gene`. -/
structure SVRecord where
  sample_id : String
  mysql_sample_id : Int
  mysql_patient_id : Int
  sv : SVElem
deriving DecidableEq, Repr

/-- Projection used by the variant queries that do not list
`reference_genome` in their `$project` stage. -/
def projectBasic (d : SampleDoc) (v : Variant) : VariantRecord :=
  ⟨d.sample_id, d.mysql_sample_id, d.mysql_patient_id, none, v⟩

/-- Projection used by `find_variants_by_multiple_filters`, which also
lists `reference_genome`. -/
def projectWithRG (d : SampleDoc) (v : Variant) : VariantRecord :=
  ⟨d.sample_id, d.mysql_sample_id, d.mysql_patient_id, some d.reference_genome, v⟩

/-- State of the document store as observed by one query function call:
the connection attempt fails, the connection succeeds but query execution
raises, or everything succeeds against the given corpus. -/
inductive MongoState where
  | connFail : MongoState
  | queryFail : List SampleDoc → MongoState
  | ok : List SampleDoc → MongoState
deriving DecidableEq, Repr

/-- `$unwind` of the `variants` array: one (document, element) pair per
element, preserving document and array order. -/
def unwindVariants (docs : List SampleDoc) : List (SampleDoc × Variant) :=
  docs.flatMap (fun d => (arrGetD d.variants).map (fun v => (d, v)))

/-- Pipeline of `find_variants_by_gene`:
match `variants.gene = g`, unwind, re-match, project (no limit stage). -/
def variantsByGenePipeline (docs : List SampleDoc) (g : String) : List VariantRecord :=
  (((docs.filter (fun d => docAnyVariant d (fun v => decide (v.gene = g)))).flatMap
      (fun d => (arrGetD d.variants).map (fun v => (d, v)))).filter
      (fun dv => decide (dv.2.gene = g))).map (fun dv => projectBasic dv.1 dv.2)

/-- `find_variants_by_gene` from `src/app/mongo_queries.py`: collection
acquisition happens before the `try`, so a connection failure raises; an
aggregation failure is caught and `[]` is returned. -/
def find_variants_by_gene (st : MongoState) (g : String) :
    Except Unit (List VariantRecord) :=
  match st with
  | .connFail => .error ()
  | .queryFail _ => .ok []
  | .ok docs => .ok (variantsByGenePipeline docs g)

/-- Pipeline of `find_variants_by_clinical_significance`:
match, unwind, re-match, project, `$limit limit`. -/
def variantsBySignificancePipeline (docs : List SampleDoc) (sig : String)
    (limit : Nat) : List VariantRecord :=
  ((((docs.filter (fun d =>
      docAnyVariant d (fun v => decide (v.clinical_significance = sig)))).flatMap
      (fun d => (arrGetD d.variants).map (fun v => (d, v)))).filter
      (fun dv => decide (dv.2.clinical_significance = sig))).map
      (fun dv => projectBasic dv.1 dv.2)).take limit

/-- `find_variants_by_clinical_significance` from `src/app/mongo_queries.py`. -/
def find_variants_by_clinical_significance (st : MongoState) (sig : String)
    (limit : Nat) : Except Unit (List VariantRecord) :=
  match st with
  | .connFail => .error ()
  | .queryFail _ => .ok []
  | .ok docs => .ok (variantsBySignificancePipeline docs sig limit)

/-- Pipeline of `find_pathogenic_variants`: the significance pipeline with
the literal value "Pathogenic". -/
def pathogenicPipeline (docs : List SampleDoc) (limit : Nat) : List VariantRecord :=
  variantsBySignificancePipeline docs "Pathogenic" limit

/-- `find_pathogenic_variants` from `src/app/mongo_queries.py`. -/
def find_pathogenic_variants (st : MongoState) (limit : Nat) :
    Except Unit (List VariantRecord) :=
  match st with
  | .connFail => .error ()
  | .queryFail _ => .ok []
  | .ok docs => .ok (pathogenicPipeline docs limit)

/-- Pipeline of `find_variants_by_gene_and_significance`.  The document
level `$match` has two single-operator conditions, each of which MongoDB
may satisfy with a different array element; after `$unwind` both apply to
the one unwound element. -/
def geneSigPipeline (docs : List SampleDoc) (g sig : String) (limit : Nat) :
    List VariantRecord :=
  ((((docs.filter (fun d =>
      docAnyVariant d (fun v => decide (v.gene = g))
      && docAnyVariant d (fun v => decide (v.clinical_significance = sig)))).flatMap
      (fun d => (arrGetD d.variants).map (fun v => (d, v)))).filter
      (fun dv => decide (dv.2.gene = g)
        && decide (dv.2.clinical_significance = sig))).map
      (fun dv => projectBasic dv.1 dv.2)).take limit

/-- `find_variants_by_gene_and_significance` from `src/app/mongo_queries.py`. -/
def find_variants_by_gene_and_significance (st : MongoState) (g sig : String)
    (limit : Nat) : Except Unit (List VariantRecord) :=
  match st with
  | .connFail => .error ()
  | .queryFail _ => .ok []
  | .ok docs => .ok (geneSigPipeline docs g sig limit)

/-- Pipeline of `find_variants_by_position` (chromosome and exact
position). -/
def byPositionPipeline (docs : List SampleDoc) (c : String) (pos : Int)
    (limit : Nat) : List VariantRecord :=
  ((((docs.filter (fun d =>
      docAnyVariant d (fun v => decide (v.chromosome = c))
      && docAnyVariant d (fun v => decide (v.position = pos)))).flatMap
      (fun d => (arrGetD d.variants).map (fun v => (d, v)))).filter
      (fun dv => decide (dv.2.chromosome = c) && decide (dv.2.position = pos))).map
      (fun dv => projectBasic dv.1 dv.2)).take limit

/-- `find_variants_by_position` from `src/app/mongo_queries.py`. -/
def find_variants_by_position (st : MongoState) (c : String) (pos : Int)
    (limit : Nat) : Except Unit (List VariantRecord) :=
  match st with
  | .connFail => .error ()
  | .queryFail _ => .ok []
  | .ok docs => .ok (byPositionPipeline docs c pos limit)

/-- Pipeline of `find_copy_number_variants_by_gene`: match on
`copy_number_variants.genes_affected`, unwind, re-match, project.  There is
no `$limit` stage and the function takes no limit argument. -/
def cnvByGenePipeline (docs : List SampleDoc) (g : String) : List CNVRecord :=
  (((docs.filter (fun d => docAnyCNV d (fun e => decide (g ∈ e.genes_affected)))).flatMap
      (fun d => (arrGetD d.copy_number_variants).map (fun e => (d, e)))).filter
      (fun de => decide (g ∈ de.2.genes_affected))).map
      (fun de => (⟨de.1.sample_id, de.1.mysql_sample_id, de.1.mysql_patient_id, de.2⟩ : CNVRecord))

/-- `find_copy_number_variants_by_gene` from `src/app/mongo_queries.py`. -/
def find_copy_number_variants_by_gene (st : MongoState) (g : String) :
    Except Unit (List CNVRecord) :=
  match st with
  | .connFail => .error ()
  | .queryFail _ => .ok []
  | .ok docs => .ok (cnvByGenePipeline docs g)

/-- Pipeline of `find_structural_variants_by_gene` (no `$limit` stage). -/
def svByGenePipeline (docs : List SampleDoc) (g : String) : List SVRecord :=
  (((docs.filter (fun d => docAnySV d (fun e => decide (g ∈ e.genes_affected)))).flatMap
      (fun d => (arrGetD d.structural_variants).map (fun e => (d, e)))).filter
      (fun de => decide (g ∈ de.2.genes_affected))).map
      (fun de => (⟨de.1.sample_id, de.1.mysql_sample_id, de.1.mysql_patient_id, de.2⟩ : SVRecord))

/-- `find_structural_variants_by_gene` from `src/app/mongo_queries.py`. -/
def find_structural_variants_by_gene (st : MongoState) (g : String) :
    Except Unit (List SVRecord) :=
  match st with
  | .connFail => .error ()
  | .queryFail _ => .ok []
  | .ok docs => .ok (svByGenePipeline docs g)

/-- `find_variants_by_sample_id` from `src/app/mongo_queries.py`: accepts
an `int` or a `str`; an `int` is converted with `str(...)` before the
equality filter; `find_one` returns the first matching document or
`None`, and a query-execution failure is caught and returned as `None`. -/
def find_variants_by_sample_id (st : MongoState) (sid : Int ⊕ String) :
    Except Unit (Option SampleDoc) :=
  match st with
  | .connFail => .error ()
  | .queryFail _ => .ok none
  | .ok docs =>
      let s := match sid with
        | .inl n => toString n
        | .inr str => str
      .ok (docs.find? (fun d => d.sample_id = s))

/-- Python truthiness of the `sample_ids` argument: `if sample_ids:` is
false both for `None` and for the empty list, so an empty list adds no
restriction. -/
def sampleIdsActive : Option (List Int) → Bool
  | none => false
  | some ids => !ids.isEmpty

/-- The `sample_match` part of the condition built by
`find_variants_by_multiple_filters`: plain document fields
(`mysql_sample_id`, `reference_genome`).  A falsy `sample_ids` (`None` or
the empty list) adds no restriction. -/
def multiSampleCond (sample_ids : Option (List Int)) (reference_genome : Option String)
    (d : SampleDoc) : Bool :=
  (match sample_ids with
   | some ids => if ids.isEmpty then true else decide (d.mysql_sample_id ∈ ids)
   | none => true)
  && (match reference_genome with
      | some r => if r = "" then true else decide (d.reference_genome = r)
      | none => true)

/-- The `variant_match` part of the condition, evaluated at the document
level: each array-path operator is an independent existence test over the
`variants` array (MongoDB may satisfy different operators with different
elements). -/
def multiVariantDocCond (gene significance chromosome : Option String)
    (position_min position_max : Option Int) (d : SampleDoc) : Bool :=
  (match gene with
   | some g => if g = "" then true else docAnyVariant d (fun v => decide (v.gene = g))
   | none => true)
  && (match significance with
      | some s => if s = "" then true
          else docAnyVariant d (fun v => decide (v.clinical_significance = s))
      | none => true)
  && (match chromosome with
      | some c => if c = "" then true
          else docAnyVariant d (fun v => decide (v.chromosome = c))
      | none => true)
  && (match position_min, position_max with
      | some a, some b =>
          docAnyVariant d (fun v => decide (a ≤ v.position))
          && docAnyVariant d (fun v => decide (v.position ≤ b))
      | some a, none => docAnyVariant d (fun v => decide (a ≤ v.position))
      | none, some b => docAnyVariant d (fun v => decide (v.position ≤ b))
      | none, none => true)

/-- The full document-level `$match` condition
(`{**sample_match, **variant_match}` — an unordered conjunction of the two
condition sets). -/
def multiDocMatch (sample_ids : Option (List Int)) (gene significance chromosome : Option String)
    (position_min position_max : Option Int) (reference_genome : Option String)
    (d : SampleDoc) : Bool :=
  multiSampleCond sample_ids reference_genome d
    && multiVariantDocCond gene significance chromosome position_min position_max d

/-- The post-`$unwind` `$match` condition of
`find_variants_by_multiple_filters` (`variant_match` only), evaluated on
the single unwound element. -/
def multiElemMatch (gene significance chromosome : Option String)
    (position_min position_max : Option Int) (v : Variant) : Bool :=
  (match gene with
   | some g => if g = "" then true else decide (v.gene = g)
   | none => true)
  && (match significance with
      | some s => if s = "" then true else decide (v.clinical_significance = s)
      | none => true)
  && (match chromosome with
      | some c => if c = "" then true else decide (v.chromosome = c)
      | none => true)
  && (match position_min, position_max with
      | some a, some b => decide (a ≤ v.position) && decide (v.position ≤ b)
      | some a, none => decide (a ≤ v.position)
      | none, some b => decide (v.position ≤ b)
      | none, none => true)

/-- Pipeline of `find_variants_by_multiple_filters`: document match,
unwind, element match, project (including `reference_genome`),
`$limit limit`. -/
def multiPipeline (docs : List SampleDoc) (sample_ids : Option (List Int))
    (gene significance chromosome : Option String)
    (position_min position_max : Option Int) (reference_genome : Option String)
    (limit : Nat) : List VariantRecord :=
  ((((docs.filter (multiDocMatch sample_ids gene significance chromosome
        position_min position_max reference_genome)).flatMap
      (fun d => (arrGetD d.variants).map (fun v => (d, v)))).filter
      (fun dv => multiElemMatch gene significance chromosome
        position_min position_max dv.2)).map
      (fun dv => projectWithRG dv.1 dv.2)).take limit

/-- `find_variants_by_multiple_filters` from `src/app/mongo_queries.py`. -/
def find_variants_by_multiple_filters (st : MongoState)
    (sample_ids : Option (List Int)) (gene significance chromosome : Option String)
    (position_min position_max : Option Int) (reference_genome : Option String)
    (limit : Nat) : Except Unit (List VariantRecord) :=
  match st with
  | .connFail => .error ()
  | .queryFail _ => .ok []
  | .ok docs => .ok (multiPipeline docs sample_ids gene significance chromosome
      position_min position_max reference_genome limit)

/-- The statistics record built by `get_variant_stats` when every
aggregation succeeds (all keys present). -/
structure VariantStats where
  total_samples : Nat
  total_variants : Nat
  significance_counts : List (String × Nat)
  type_counts : List (String × Nat)
  total_cnvs : Nat
  total_svs : Nat
deriving DecidableEq, Repr

/-- The distinct values of a list, sorted ascending — the `_id` keys
produced by a `$group` on that value followed by `$sort {_id: 1}`. -/
def sortedKeys (l : List String) : List String :=
  l.toFinset.sort (· ≤ ·)

/-- Grouped counts as produced by `$unwind` + `$group` + `$sort`: one
(key, count) pair per distinct value, sorted by key. -/
def groupCounts (l : List String) : List (String × Nat) :=
  (sortedKeys l).map (fun k => (k, l.count k))

/-- All `clinical_significance` values of the corpus, in unwind order. -/
def allSignificances (docs : List SampleDoc) : List String :=
  docs.flatMap (fun d => (arrGetD d.variants).map (fun v => v.clinical_significance))

/-- All `variant_type` values of the corpus, in unwind order. -/
def allVariantTypes (docs : List SampleDoc) : List String :=
  docs.flatMap (fun d => (arrGetD d.variants).map (fun v => v.variant_type))

/-- The statistics computed over a corpus in which every document has a
`variants` array.  CNV and SV totals use `$ifNull`, so absent arrays
count as zero there. -/
def computeStats (docs : List SampleDoc) : VariantStats :=
  { total_samples := docs.length
    total_variants := (docs.map (fun d => (arrGetD d.variants).length)).sum
    significance_counts := groupCounts (allSignificances docs)
    type_counts := groupCounts (allVariantTypes docs)
    total_cnvs := (docs.map (fun d => (arrGetD d.copy_number_variants).length)).sum
    total_svs := (docs.map (fun d => (arrGetD d.structural_variants).length)).sum }

/-- `get_variant_stats` from `src/app/mongo_queries.py`.  The
`total_variants` pipeline applies `$size: "$variants"` without `$ifNull`,
so a document lacking the `variants` array makes that aggregation raise;
the `except` branch then returns the empty dict (modelled as `none`).  A
query-execution failure likewise yields the empty dict, and a connection
failure propagates. -/
def get_variant_stats (st : MongoState) : Except Unit (Option VariantStats) :=
  match st with
  | .connFail => .error ()
  | .queryFail _ => .ok none
  | .ok docs =>
      if docs.any (fun d => d.variants.isNone) then .ok none
      else .ok (some (computeStats docs))

/-- An HTTP-layer outcome: a successful JSON body or an `HTTPException`
with a status code. -/
inductive ApiResponse (α : Type) where
  | ok : α → ApiResponse α
  | httpError : Nat → ApiResponse α
deriving DecidableEq, Repr

/-- Default of the `limit` query parameter on the variant endpoints
(`Query(100, ge=1, le=1000)` in `src/app/api.py`). -/
def apiDefaultLimit : Nat := 100

/-- Upper bound of the `limit` query parameter on the variant endpoints. -/
def apiMaxLimit : Nat := 1000

/-- FastAPI validation of the `limit` parameter: `ge=1, le=1000`. -/
def limitParamValid (n : Nat) : Bool := 1 ≤ n && n ≤ apiMaxLimit

/-- `get_variants_by_gene` from `src/app/api.py`: a truthy significance
routes to `find_variants_by_gene_and_significance`; otherwise
`find_variants_by_gene` runs without a limit and the handler slices the
flattened result with `variants[:limit]` when it is longer than `limit`;
an empty final list becomes a 404. -/
def api_get_variants_by_gene (st : MongoState) (gene : String)
    (significance : Option String) (limit : Nat) :
    Except Unit (ApiResponse (List VariantRecord)) := do
  let variants ←
    if strFilterActive significance then
      find_variants_by_gene_and_significance st gene (significance.getD "") limit
    else do
      let vs ← find_variants_by_gene st gene
      pure (if limit < vs.length then vs.take limit else vs)
  pure (if variants.isEmpty then .httpError 404 else .ok variants)

/-- The tail of every `combined_query` path that reaches the document
matcher: propagate an exception, turn an empty list into a 404, and wrap
a non-empty list as the response body. -/
def wrapMatcherResult (r : Except Unit (List VariantRecord)) :
    Except Unit (ApiResponse (List VariantRecord)) :=
  match r with
  | .error e => .error e
  | .ok variants => .ok (if variants.isEmpty then .httpError 404 else .ok variants)

/-- Instrumentation for the federation orchestrator: how many times each
store was invoked during one call. -/
structure Trace where
  resolverCalls : Nat
  matcherCalls : Nat
deriving DecidableEq, Repr

/-- `combined_query` from `src/app/api.py`: when any of `age_min`,
`age_max`, `sex` is not `None`, the demographic resolver runs first and an
empty sample-id list raises a 404 before the document store is touched;
otherwise the matcher runs with `sample_ids = None`.  The second component
counts the store invocations actually performed. -/
def combined_query (db : RelDB) (today : PDate) (st : MongoState)
    (gene significance : Option String) (age_min age_max : Option Nat)
    (sex : Option String) (chromosome : Option String)
    (position_min position_max : Option Int) (reference_genome : Option String)
    (limit : Nat) :
    Except Unit (ApiResponse (List VariantRecord)) × Trace :=
  if age_min.isSome || age_max.isSome || sex.isSome then
    let sample_ids := get_sample_ids_by_patient_details db today age_min age_max sex
    if sample_ids.isEmpty then
      (.ok (.httpError 404), ⟨1, 0⟩)
    else
      (wrapMatcherResult (find_variants_by_multiple_filters st (some sample_ids)
        gene significance chromosome position_min position_max reference_genome limit),
       ⟨1, 1⟩)
  else
    (wrapMatcherResult (find_variants_by_multiple_filters st none
      gene significance chromosome position_min position_max reference_genome limit),
     ⟨0, 1⟩)

/-- Normal form of a variant pipeline without a limit stage: flatten each
document's array, keep exactly the elements satisfying the element
predicate, and project without the reference genome. -/
def flattenFilterBasic (docs : List SampleDoc) (p : Variant → Bool) : List VariantRecord :=
  docs.flatMap (fun d => ((arrGetD d.variants).filter p).map (projectBasic d))

/-- Normal form of a variant pipeline that projects the reference
genome. -/
def flattenFilterRG (docs : List SampleDoc) (p : Variant → Bool) : List VariantRecord :=
  docs.flatMap (fun d => ((arrGetD d.variants).filter p).map (projectWithRG d))

/-- The unrestricted multi-filter result before truncation: document-level
`reference_genome` restriction, then flatten-and-filter with the element
predicate. -/
def multiFlattenAll (docs : List SampleDoc) (gene significance chromosome : Option String)
    (position_min position_max : Option Int) (reference_genome : Option String) :
    List VariantRecord :=
  (docs.filter (multiSampleCond none reference_genome)).flatMap
    (fun d => ((arrGetD d.variants).filter
        (multiElemMatch gene significance chromosome position_min position_max)).map
      (projectWithRG d))

/-- Length of the list carried by a successful HTTP response (0 for an
error response or an exception). -/
def apiOkLength {α : Type} : Except Unit (ApiResponse (List α)) → Nat
  | .ok (.ok l) => l.length
  | _ => 0

/-- A concrete variant element used in the counterexamples. -/
def vEx : Variant := ⟨"BRCA1", "Pathogenic", "17", 43045700, "SNV", 0⟩

/-- A concrete sample document containing one `BRCA1` variant. -/
def docEx : SampleDoc := ⟨"SAMPLE_A", 1, 10, "GRCh38", some [vEx], none, none⟩

/-- A concrete CNV element affecting two genes. -/
def cnvEx : CNVElem := ⟨["GENE1", "GENE2"], 0⟩

/-- A document whose CNV array has 1001 elements, all affecting GENE1. -/
def bigCNVDoc : SampleDoc :=
  ⟨"SAMPLE_B", 2, 20, "GRCh38", none, some (List.replicate 1001 cnvEx), none⟩

/-- A document with no `variants` array at all. -/
def statsBadDoc : SampleDoc := ⟨"SAMPLE_C", 3, 30, "GRCh38", none, none, none⟩

lemma inner_proj_eq {β : Type} (d : SampleDoc) (arr : List Variant) (p : Variant → Bool)
    (proj : SampleDoc → Variant → β) :
    ((arr.map (fun v => (d, v))).filter (fun dv => p dv.2)).map (fun dv => proj dv.1 dv.2)
      = (arr.filter p).map (proj d) := by
  induction arr with
  | nil => rfl
  | cons a l ih => by_cases h : p a <;> simp [List.filter_cons, h, ih]

lemma two_phase_eq {β : Type} (docs : List SampleDoc) (dpre epre : SampleDoc → Bool)
    (p : Variant → Bool) (proj : SampleDoc → Variant → β)
    (h : ∀ d, epre d = false → ∀ v ∈ arrGetD d.variants, p v = false) :
    (((docs.filter (fun d => dpre d && epre d)).flatMap
        (fun d => (arrGetD d.variants).map (fun v => (d, v)))).filter
        (fun dv => p dv.2)).map (fun dv => proj dv.1 dv.2)
      = (docs.filter dpre).flatMap
          (fun d => ((arrGetD d.variants).filter p).map (proj d)) := by
  induction docs with
  | nil => rfl
  | cons d l ih =>
    cases hd : dpre d with
    | true =>
      cases he : epre d with
      | true =>
        simp only [List.filter_cons, hd, he, Bool.and_self, if_pos, List.flatMap_cons,
          List.filter_append, List.map_append, ih, inner_proj_eq]
      | false =>
        have hnil : (arrGetD d.variants).filter p = [] :=
          List.filter_eq_nil_iff.mpr (fun v hv => by simp [h d he v hv])
        simp [List.filter_cons, hd, he, List.flatMap_cons, ih, hnil]
    | false => simp [List.filter_cons, hd, ih]

lemma two_phase_eq_simple {β : Type} (docs : List SampleDoc) (epre : SampleDoc → Bool)
    (p : Variant → Bool) (proj : SampleDoc → Variant → β)
    (h : ∀ d, epre d = false → ∀ v ∈ arrGetD d.variants, p v = false) :
    (((docs.filter epre).flatMap
        (fun d => (arrGetD d.variants).map (fun v => (d, v)))).filter
        (fun dv => p dv.2)).map (fun dv => proj dv.1 dv.2)
      = docs.flatMap (fun d => ((arrGetD d.variants).filter p).map (proj d)) := by
  have base := two_phase_eq docs (fun _ => true) epre p proj h
  simpa using base

lemma any_false_elem {p : Variant → Bool} {d : SampleDoc}
    (h : docAnyVariant d p = false) : ∀ v ∈ arrGetD d.variants, p v = false := by
  intro v hv
  have := List.any_eq_false.mp h v hv
  simpa using this

lemma conj_epre_sound (q r : Variant → Bool) (d : SampleDoc)
    (hd : (docAnyVariant d q && docAnyVariant d r) = false) :
    ∀ v ∈ arrGetD d.variants, (q v && r v) = false := by
  intro v hv
  cases hq : q v with
  | false => simp [hq]
  | true =>
    have hAq : docAnyVariant d q = true :=
      List.any_eq_true.mpr ⟨v, hv, hq⟩
    have hAr : docAnyVariant d r = false := by
      cases hr : docAnyVariant d r with
      | false => rfl
      | true => rw [hAq, hr] at hd; exact absurd hd (by simp)
    have := any_false_elem hAr v hv
    simp [this]

lemma multi_elem_implies_doc (g s c : Option String) (pmin pmax : Option Int)
    (d : SampleDoc) (v : Variant) (hv : v ∈ arrGetD d.variants)
    (h : multiElemMatch g s c pmin pmax v = true) :
    multiVariantDocCond g s c pmin pmax d = true := by
  unfold multiElemMatch at h
  unfold multiVariantDocCond docAnyVariant
  simp only [Bool.and_eq_true] at h ⊢
  obtain ⟨⟨⟨hg, hs⟩, hc⟩, hp⟩ := h
  refine ⟨⟨⟨?_, ?_⟩, ?_⟩, ?_⟩
  · cases g with
    | none => rfl
    | some gg =>
      by_cases hgg : gg = ""
      · simp [hgg]
      · simp only [if_neg hgg] at hg ⊢
        exact List.any_eq_true.mpr ⟨v, hv, hg⟩
  · cases s with
    | none => rfl
    | some ss =>
      by_cases hss : ss = ""
      · simp [hss]
      · simp only [if_neg hss] at hs ⊢
        exact List.any_eq_true.mpr ⟨v, hv, hs⟩
  · cases c with
    | none => rfl
    | some cc =>
      by_cases hcc : cc = ""
      · simp [hcc]
      · simp only [if_neg hcc] at hc ⊢
        exact List.any_eq_true.mpr ⟨v, hv, hc⟩
  · cases pmin with
    | none =>
      cases pmax with
      | none => rfl
      | some b => exact List.any_eq_true.mpr ⟨v, hv, hp⟩
    | some a =>
      cases pmax with
      | none => exact List.any_eq_true.mpr ⟨v, hv, hp⟩
      | some b =>
        simp only [Bool.and_eq_true] at hp ⊢
        exact ⟨List.any_eq_true.mpr ⟨v, hv, hp.1⟩, List.any_eq_true.mpr ⟨v, hv, hp.2⟩⟩

lemma multi_epre_sound (g s c : Option String) (pmin pmax : Option Int) (d : SampleDoc)
    (hd : multiVariantDocCond g s c pmin pmax d = false) :
    ∀ v ∈ arrGetD d.variants, multiElemMatch g s c pmin pmax v = false := by
  intro v hv
  cases he : multiElemMatch g s c pmin pmax v with
  | false => rfl
  | true =>
    rw [multi_elem_implies_doc g s c pmin pmax d v hv he] at hd
    exact absurd hd (by simp)

/-- C2.  Flatten-then-filter equivalence: each variant-finding pipeline
returns exactly one record per array element satisfying its element-level
predicate (then truncated by the pipeline's `$limit` stage where one
exists) — an element of a prefilter-matched document that itself fails the
predicate never surfaces, even though the document-level prefilter tests
each conjunct against possibly different elements. -/
theorem c2_flatten_then_filter (docs : List SampleDoc) (g sig c : String) (pos : Int)
    (gop sop cop : Option String) (pmin pmax : Option Int) (limit : Nat) :
    variantsByGenePipeline docs g
        = flattenFilterBasic docs (fun v => decide (v.gene = g))
    ∧ variantsBySignificancePipeline docs sig limit
        = (flattenFilterBasic docs
            (fun v => decide (v.clinical_significance = sig))).take limit
    ∧ geneSigPipeline docs g sig limit
        = (flattenFilterBasic docs
            (fun v => decide (v.gene = g)
              && decide (v.clinical_significance = sig))).take limit
    ∧ byPositionPipeline docs c pos limit
        = (flattenFilterBasic docs
            (fun v => decide (v.chromosome = c) && decide (v.position = pos))).take limit
    ∧ multiPipeline docs none gop sop cop pmin pmax none limit
        = (flattenFilterRG docs (multiElemMatch gop sop cop pmin pmax)).take limit := by
  refine ⟨?_, ?_, ?_, ?_, ?_⟩
  · unfold variantsByGenePipeline flattenFilterBasic
    exact two_phase_eq_simple docs
      (fun d => docAnyVariant d (fun v => decide (v.gene = g)))
      (fun v => decide (v.gene = g)) projectBasic (fun d hd => any_false_elem hd)
  · unfold variantsBySignificancePipeline flattenFilterBasic
    exact congrArg (List.take limit)
      (two_phase_eq_simple docs
        (fun d => docAnyVariant d (fun v => decide (v.clinical_significance = sig)))
        (fun v => decide (v.clinical_significance = sig)) projectBasic
        (fun d hd => any_false_elem hd))
  · unfold geneSigPipeline flattenFilterBasic
    exact congrArg (List.take limit)
      (two_phase_eq_simple docs
        (fun d => docAnyVariant d (fun v => decide (v.gene = g))
          && docAnyVariant d (fun v => decide (v.clinical_significance = sig)))
        (fun v => decide (v.gene = g) && decide (v.clinical_significance = sig))
        projectBasic
        (fun d hd => conj_epre_sound (fun v => decide (v.gene = g))
          (fun v => decide (v.clinical_significance = sig)) d hd))
  · unfold byPositionPipeline flattenFilterBasic
    exact congrArg (List.take limit)
      (two_phase_eq_simple docs
        (fun d => docAnyVariant d (fun v => decide (v.chromosome = c))
          && docAnyVariant d (fun v => decide (v.position = pos)))
        (fun v => decide (v.chromosome = c) && decide (v.position = pos))
        projectBasic
        (fun d hd => conj_epre_sound (fun v => decide (v.chromosome = c))
          (fun v => decide (v.position = pos)) d hd))
  · unfold multiPipeline flattenFilterRG multiDocMatch
    have hfull : docs.filter (multiSampleCond none none) = docs := by
      rw [List.filter_eq_self]
      intro d _
      simp [multiSampleCond]
    have base := two_phase_eq docs (multiSampleCond none none)
      (multiVariantDocCond gop sop cop pmin pmax)
      (multiElemMatch gop sop cop pmin pmax) projectWithRG
      (multi_epre_sound gop sop cop pmin pmax)
    rw [hfull] at base
    exact congrArg (List.take limit) base

lemma filter_map_const {α β : Type} (l : List α) (f : α → β) (q : β → Bool) (b : Bool)
    (h : ∀ x, q (f x) = b) : (l.map f).filter q = if b then l.map f else [] := by
  induction l with
  | nil => cases b <;> simp
  | cons a t ih =>
    cases b with
    | false => simp [List.filter_cons, h, ih]
    | true => simp [List.filter_cons, h, ih]

lemma filter_parent_flatMap (docs : List SampleDoc) (p : Variant → Bool) (S : List Int) :
    (docs.flatMap (fun d => ((arrGetD d.variants).filter p).map (projectWithRG d))).filter
        (fun r => decide (r.mysql_sample_id ∈ S))
      = (docs.filter (fun d => decide (d.mysql_sample_id ∈ S))).flatMap
          (fun d => ((arrGetD d.variants).filter p).map (projectWithRG d)) := by
  induction docs with
  | nil => rfl
  | cons d l ih =>
    have hconst : ∀ v : Variant,
        (decide ((projectWithRG d v).mysql_sample_id ∈ S)) = decide (d.mysql_sample_id ∈ S) :=
      fun v => rfl
    rw [List.flatMap_cons, List.filter_append, ih,
        filter_map_const ((arrGetD d.variants).filter p) (projectWithRG d) _
          (decide (d.mysql_sample_id ∈ S)) hconst,
        List.filter_cons]
    cases hd : decide (d.mysql_sample_id ∈ S) <;> simp [List.flatMap_cons, hd]

lemma multi_unrestricted_normal (docs : List SampleDoc)
    (gop sop cop : Option String) (pmin pmax : Option Int) (rg : Option String)
    (limit : Nat) :
    multiPipeline docs none gop sop cop pmin pmax rg limit
      = (multiFlattenAll docs gop sop cop pmin pmax rg).take limit := by
  unfold multiPipeline multiDocMatch multiFlattenAll
  exact congrArg (List.take limit)
    (two_phase_eq docs (multiSampleCond none rg)
      (multiVariantDocCond gop sop cop pmin pmax)
      (multiElemMatch gop sop cop pmin pmax) projectWithRG
      (multi_epre_sound gop sop cop pmin pmax))

lemma multi_restricted_normal (docs : List SampleDoc) (S : List Int)
    (gop sop cop : Option String) (pmin pmax : Option Int) (rg : Option String)
    (limit : Nat) (hS : S ≠ []) :
    multiPipeline docs (some S) gop sop cop pmin pmax rg limit
      = ((multiFlattenAll docs gop sop cop pmin pmax rg).filter
          (fun r => decide (r.mysql_sample_id ∈ S))).take limit := by
  have base : multiPipeline docs (some S) gop sop cop pmin pmax rg limit
      = ((docs.filter (multiSampleCond (some S) rg)).flatMap
          (fun d => ((arrGetD d.variants).filter
              (multiElemMatch gop sop cop pmin pmax)).map (projectWithRG d))).take limit := by
    unfold multiPipeline multiDocMatch
    exact congrArg (List.take limit)
      (two_phase_eq docs (multiSampleCond (some S) rg)
        (multiVariantDocCond gop sop cop pmin pmax)
        (multiElemMatch gop sop cop pmin pmax) projectWithRG
        (multi_epre_sound gop sop cop pmin pmax))
  have hfilter : docs.filter (multiSampleCond (some S) rg)
      = (docs.filter (multiSampleCond none rg)).filter
          (fun d => decide (d.mysql_sample_id ∈ S)) := by
    rw [List.filter_filter]
    apply List.filter_congr
    intro d _
    have hne : S.isEmpty = false := by
      cases S with
      | nil => exact absurd rfl hS
      | cons a t => rfl
    simp [multiSampleCond, hne]
  rw [base, hfilter]
  unfold multiFlattenAll
  rw [filter_parent_flatMap]

/-- C3 (amended).  Restriction pushdown equivalence holds for a *non-empty*
restriction set whenever the unrestricted result is not truncated by the
limit: the restricted matcher returns exactly the unrestricted result
filtered by parent relational sample id.  (An empty set is falsy in the
source and disables the restriction entirely, and truncation interacts
with the filter, so both exclusions are necessary.) -/
theorem c3_restriction_pushdown (docs : List SampleDoc) (S : List Int)
    (gop sop cop : Option String) (pmin pmax : Option Int) (rg : Option String)
    (limit : Nat) (hS : S ≠ [])
    (hlen : (multiFlattenAll docs gop sop cop pmin pmax rg).length ≤ limit) :
    multiPipeline docs (some S) gop sop cop pmin pmax rg limit
      = (multiPipeline docs none gop sop cop pmin pmax rg limit).filter
          (fun r => decide (r.mysql_sample_id ∈ S)) := by
  rw [multi_unrestricted_normal, multi_restricted_normal docs S gop sop cop pmin pmax rg limit hS,
      List.take_of_length_le hlen,
      List.take_of_length_le (le_trans (List.length_filter_le _ _) hlen)]

/-- C3, counterexample.  With the empty restriction set the claim fails:
`sample_ids=[]` is falsy in the source, so the matcher runs unrestricted
and returns the document's record, whereas filtering the unrestricted
result by "parent sample id in the empty set" returns nothing. -/
theorem c3_counterexample :
    ¬ (multiPipeline [docEx] (some []) none none none none none none 100
        = (multiPipeline [docEx] none none none none none none none 100).filter
            (fun r => decide (r.mysql_sample_id ∈ ([] : List Int)))) := by
  decide

/-- Witness for `c3_restriction_pushdown` at a concrete input. -/
theorem c3_restriction_pushdown_witness :
    multiPipeline [docEx] (some [1]) none none none none none none 100
      = (multiPipeline [docEx] none none none none none none none 100).filter
          (fun r => decide (r.mysql_sample_id ∈ ([1] : List Int))) :=
  c3_restriction_pushdown [docEx] [1] none none none none none none 100
    (by decide) (by decide)

/-- C1 (amended).  For every list-returning finding query, a connection
failure (raised while acquiring the collection, outside the `try`)
propagates as an exception, but a query-execution failure is caught and
returned as the same empty list that a successful zero-match query
returns.  For the stats query a query-execution failure yields the empty
dict, which *is* distinguishable from any successful result (a successful
stats call always returns the populated dict). -/
theorem c1_failure_channels (docs : List SampleDoc) (g sig c : String) (pos : Int)
    (ids : Option (List Int)) (gop sop cop rg : Option String)
    (pmin pmax : Option Int) (limit : Nat)
    (hvars : ∀ d ∈ docs, d.variants.isSome = true) :
    (find_variants_by_gene .connFail g = .error ()
      ∧ find_variants_by_gene (.queryFail docs) g = .ok []
      ∧ find_variants_by_gene (.ok []) g = .ok [])
    ∧ (find_variants_by_clinical_significance .connFail sig limit = .error ()
      ∧ find_variants_by_clinical_significance (.queryFail docs) sig limit = .ok []
      ∧ find_variants_by_clinical_significance (.ok []) sig limit = .ok [])
    ∧ (find_variants_by_gene_and_significance .connFail g sig limit = .error ()
      ∧ find_variants_by_gene_and_significance (.queryFail docs) g sig limit = .ok []
      ∧ find_variants_by_gene_and_significance (.ok []) g sig limit = .ok [])
    ∧ (find_variants_by_position .connFail c pos limit = .error ()
      ∧ find_variants_by_position (.queryFail docs) c pos limit = .ok []
      ∧ find_variants_by_position (.ok []) c pos limit = .ok [])
    ∧ (find_variants_by_multiple_filters .connFail ids gop sop cop pmin pmax rg limit
          = .error ()
      ∧ find_variants_by_multiple_filters (.queryFail docs) ids gop sop cop pmin pmax rg limit
          = .ok []
      ∧ find_variants_by_multiple_filters (.ok []) ids gop sop cop pmin pmax rg limit
          = .ok [])
    ∧ (find_copy_number_variants_by_gene .connFail g = .error ()
      ∧ find_copy_number_variants_by_gene (.queryFail docs) g = .ok []
      ∧ find_copy_number_variants_by_gene (.ok []) g = .ok [])
    ∧ (find_structural_variants_by_gene .connFail g = .error ()
      ∧ find_structural_variants_by_gene (.queryFail docs) g = .ok []
      ∧ find_structural_variants_by_gene (.ok []) g = .ok [])
    ∧ (get_variant_stats .connFail = .error ()
      ∧ get_variant_stats (.queryFail docs) = .ok none
      ∧ get_variant_stats (.ok docs) ≠ .ok none) := by
  refine ⟨⟨rfl, rfl, rfl⟩,
    ⟨rfl, rfl, by simp [find_variants_by_clinical_significance,
      variantsBySignificancePipeline]⟩,
    ⟨rfl, rfl, by simp [find_variants_by_gene_and_significance, geneSigPipeline]⟩,
    ⟨rfl, rfl, by simp [find_variants_by_position, byPositionPipeline]⟩,
    ⟨rfl, rfl, by simp [find_variants_by_multiple_filters, multiPipeline]⟩,
    ⟨rfl, rfl, rfl⟩, ⟨rfl, rfl, rfl⟩, rfl, rfl, ?_⟩
  have hnone : docs.any (fun d => d.variants.isNone) = false := by
    rw [List.any_eq_false]
    intro d hd
    obtain ⟨x, hx⟩ := Option.isSome_iff_exists.mp (hvars d hd)
    simp [hx]
  unfold get_variant_stats
  simp [hnone]

/-- Witness for `c1_failure_channels` at a concrete input. -/
theorem c1_failure_channels_witness :
    find_variants_by_gene .connFail "BRCA1" = .error ()
    ∧ get_variant_stats (.ok [docEx]) ≠ .ok none := by
  have h := c1_failure_channels [docEx] "BRCA1" "Pathogenic" "17" 43045700
    none none none none none none none 100 (by decide)
  exact ⟨h.1.1, h.2.2.2.2.2.2.2.2.2⟩

/-- C1, counterexample.  A query-execution failure of the gene query is
returned as `.ok []` — the very same value a successful query with zero
matches returns — so the two outcomes are conflated, contrary to the
claim. -/
theorem c1_counterexample :
    find_variants_by_gene (.queryFail [docEx]) "BRCA1" = .ok []
    ∧ find_variants_by_gene (.ok []) "BRCA1" = .ok [] :=
  ⟨rfl, rfl⟩

lemma mem_pipeline_shape {β : Type} (docs : List SampleDoc) (pre : SampleDoc → Bool)
    (p : (SampleDoc × Variant) → Bool) (proj : SampleDoc → Variant → β) (r : β)
    (hr : r ∈ ((((docs.filter pre).flatMap
        (fun d => (arrGetD d.variants).map (fun v => (d, v)))).filter p).map
        (fun dv => proj dv.1 dv.2))) :
    ∃ d ∈ docs, ∃ v ∈ arrGetD d.variants, r = proj d v := by
  rcases List.mem_map.mp hr with ⟨dv, hdv, rfl⟩
  have hdv1 := (List.mem_filter.mp hdv).1
  rcases List.mem_flatMap.mp hdv1 with ⟨d, hd, hmem⟩
  rcases List.mem_map.mp hmem with ⟨v, hv, rfl⟩
  exact ⟨d, (List.mem_filter.mp hd).1, v, hv, rfl⟩

/-- C9 (amended).  Every record of a variant finding query (by gene, by
significance, by gene+significance, by position, by multiple filters)
carries the parent document's native sample id, relational sample id and
relational patient id together with the single element; the reference
genome is carried only by the multi-filter query — the by-gene,
by-significance, gene+significance and by-position queries do not project
it (their records have no reference-genome value). -/
theorem c9_record_identity_fields (docs : List SampleDoc) (g sig c : String)
    (pos : Int) (ids : Option (List Int)) (gop sop cop rg : Option String)
    (pmin pmax : Option Int) (limit : Nat) :
    (∀ r ∈ variantsByGenePipeline docs g, ∃ d ∈ docs,
        r.sample_id = d.sample_id ∧ r.mysql_sample_id = d.mysql_sample_id
        ∧ r.mysql_patient_id = d.mysql_patient_id
        ∧ r.reference_genome = none ∧ r.variant ∈ arrGetD d.variants)
    ∧ (∀ r ∈ variantsBySignificancePipeline docs sig limit, ∃ d ∈ docs,
        r.sample_id = d.sample_id ∧ r.mysql_sample_id = d.mysql_sample_id
        ∧ r.mysql_patient_id = d.mysql_patient_id
        ∧ r.reference_genome = none ∧ r.variant ∈ arrGetD d.variants)
    ∧ (∀ r ∈ geneSigPipeline docs g sig limit, ∃ d ∈ docs,
        r.sample_id = d.sample_id ∧ r.mysql_sample_id = d.mysql_sample_id
        ∧ r.mysql_patient_id = d.mysql_patient_id
        ∧ r.reference_genome = none ∧ r.variant ∈ arrGetD d.variants)
    ∧ (∀ r ∈ byPositionPipeline docs c pos limit, ∃ d ∈ docs,
        r.sample_id = d.sample_id ∧ r.mysql_sample_id = d.mysql_sample_id
        ∧ r.mysql_patient_id = d.mysql_patient_id
        ∧ r.reference_genome = none ∧ r.variant ∈ arrGetD d.variants)
    ∧ (∀ r ∈ multiPipeline docs ids gop sop cop pmin pmax rg limit, ∃ d ∈ docs,
        r.sample_id = d.sample_id ∧ r.mysql_sample_id = d.mysql_sample_id
        ∧ r.mysql_patient_id = d.mysql_patient_id
        ∧ r.reference_genome = some d.reference_genome
        ∧ r.variant ∈ arrGetD d.variants) := by
  refine ⟨?_, ?_, ?_, ?_, ?_⟩
  · intro r hr
    unfold variantsByGenePipeline at hr
    rcases mem_pipeline_shape docs _ _ projectBasic r hr with ⟨d, hd, v, hv, rfl⟩
    exact ⟨d, hd, rfl, rfl, rfl, rfl, hv⟩
  · intro r hr
    unfold variantsBySignificancePipeline at hr
    have hr' := List.mem_of_mem_take hr
    rcases mem_pipeline_shape docs _ _ projectBasic r hr' with ⟨d, hd, v, hv, rfl⟩
    exact ⟨d, hd, rfl, rfl, rfl, rfl, hv⟩
  · intro r hr
    unfold geneSigPipeline at hr
    have hr' := List.mem_of_mem_take hr
    rcases mem_pipeline_shape docs _ _ projectBasic r hr' with ⟨d, hd, v, hv, rfl⟩
    exact ⟨d, hd, rfl, rfl, rfl, rfl, hv⟩
  · intro r hr
    unfold byPositionPipeline at hr
    have hr' := List.mem_of_mem_take hr
    rcases mem_pipeline_shape docs _ _ projectBasic r hr' with ⟨d, hd, v, hv, rfl⟩
    exact ⟨d, hd, rfl, rfl, rfl, rfl, hv⟩
  · intro r hr
    unfold multiPipeline at hr
    have hr' := List.mem_of_mem_take hr
    rcases mem_pipeline_shape docs _ _ projectWithRG r hr' with ⟨d, hd, v, hv, rfl⟩
    exact ⟨d, hd, rfl, rfl, rfl, rfl, hv⟩

/-- Witness for `c9_record_identity_fields` at a concrete input: a record
of the by-significance query carries the three id fields and no reference
genome, and a record of the multi-filter query carries the parent's
reference genome. -/
theorem c9_record_identity_fields_witness :
    (∃ d ∈ [docEx], (projectBasic docEx vEx).sample_id = d.sample_id
      ∧ (projectBasic docEx vEx).mysql_sample_id = d.mysql_sample_id
      ∧ (projectBasic docEx vEx).mysql_patient_id = d.mysql_patient_id
      ∧ (projectBasic docEx vEx).reference_genome = none
      ∧ (projectBasic docEx vEx).variant ∈ arrGetD d.variants)
    ∧ ∃ d ∈ [docEx], (projectWithRG docEx vEx).sample_id = d.sample_id
      ∧ (projectWithRG docEx vEx).mysql_sample_id = d.mysql_sample_id
      ∧ (projectWithRG docEx vEx).mysql_patient_id = d.mysql_patient_id
      ∧ (projectWithRG docEx vEx).reference_genome = some d.reference_genome
      ∧ (projectWithRG docEx vEx).variant ∈ arrGetD d.variants := by
  have h := c9_record_identity_fields [docEx] "BRCA1" "Pathogenic" "17" 43045700
    none none none none none none none 100
  exact ⟨h.2.1 (projectBasic docEx vEx) (by decide),
    h.2.2.2.2 (projectWithRG docEx vEx) (by decide)⟩

/-- C9, counterexample.  The by-gene query's record for a document whose
reference genome is "GRCh38" carries no reference genome at all: the
`$project` stage of `find_variants_by_gene` does not list the field. -/
theorem c9_counterexample :
    variantsByGenePipeline [docEx] "BRCA1"
        = [{ sample_id := "SAMPLE_A", mysql_sample_id := 1, mysql_patient_id := 10,
             reference_genome := none, variant := vEx }]
    ∧ docEx.reference_genome = "GRCh38" := by
  exact ⟨by decide, rfl⟩

/-- C10.  A single-document lookup by document-native sample id treats an
integer argument and its decimal string form identically: the integer is
converted with `str(...)` before the equality filter is applied. -/
theorem c10_sample_id_coercion (st : MongoState) (n : Int) :
    find_variants_by_sample_id st (Sum.inl n)
      = find_variants_by_sample_id st (Sum.inr (toString n)) := by
  cases st <;> rfl

lemma replicate_any {α : Type} (n : Nat) (a : α) (p : α → Bool) (hn : n ≠ 0)
    (hp : p a = true) : (List.replicate n a).any p = true :=
  List.any_eq_true.mpr ⟨a, List.mem_replicate.mpr ⟨hn, rfl⟩, hp⟩

lemma replicate_filter {α : Type} (n : Nat) (a : α) (p : α → Bool) (hp : p a = true) :
    (List.replicate n a).filter p = List.replicate n a := by
  induction n with
  | zero => rfl
  | succ k ih => simp [List.replicate_succ, List.filter_cons, hp, ih]

lemma apiOkLength_wrap (r : List VariantRecord) (n : Nat) (h : r.length ≤ n) :
    apiOkLength (Except.ok (if r.isEmpty then ApiResponse.httpError 404
      else ApiResponse.ok r)) ≤ n := by
  cases hr : r.isEmpty <;> simp [apiOkLength, hr, h]

/-- C4 (amended).  The variant finding queries honour the limit: each
returns at most `limit` flattened records, truncation happens after
flattening, and the HTTP layer's `limit` parameter has default 100 and
ceiling 1000.  The CNV-by-gene and SV-by-gene queries, however, take no
limit at all (no parameter and no `$limit` stage) and return every
matching record — see the counterexample. -/
theorem c4_limit_semantics (docs : List SampleDoc) (g sig c : String) (pos : Int)
    (sop : Option String) (ids : Option (List Int)) (gop sop2 cop rg : Option String)
    (pmin pmax : Option Int) (n : Nat) (hn : limitParamValid n = true) :
    apiDefaultLimit = 100
    ∧ apiMaxLimit = 1000
    ∧ n ≤ apiMaxLimit
    ∧ (variantsBySignificancePipeline docs sig n).length ≤ n
    ∧ (geneSigPipeline docs g sig n).length ≤ n
    ∧ (byPositionPipeline docs c pos n).length ≤ n
    ∧ (pathogenicPipeline docs n).length ≤ n
    ∧ (multiPipeline docs ids gop sop2 cop pmin pmax rg n).length ≤ n
    ∧ apiOkLength (api_get_variants_by_gene (.ok docs) g sop n) ≤ n := by
  have hle : n ≤ apiMaxLimit := by
    simp only [limitParamValid, Bool.and_eq_true, decide_eq_true_eq] at hn
    exact hn.2
  refine ⟨rfl, rfl, hle, ?_, ?_, ?_, ?_, ?_, ?_⟩
  · unfold variantsBySignificancePipeline
    exact List.length_take_le n _
  · unfold geneSigPipeline
    exact List.length_take_le n _
  · unfold byPositionPipeline
    exact List.length_take_le n _
  · unfold pathogenicPipeline variantsBySignificancePipeline
    exact List.length_take_le n _
  · unfold multiPipeline
    exact List.length_take_le n _
  · by_cases hs : strFilterActive sop = true
    · have heq : api_get_variants_by_gene (.ok docs) g sop n
          = Except.ok (if (geneSigPipeline docs g (sop.getD "") n).isEmpty
              then ApiResponse.httpError 404
              else ApiResponse.ok (geneSigPipeline docs g (sop.getD "") n)) := by
        simp [api_get_variants_by_gene, hs, find_variants_by_gene_and_significance]
      rw [heq]
      exact apiOkLength_wrap _ n (by unfold geneSigPipeline; exact List.length_take_le n _)
    · have hs' : strFilterActive sop = false := by
        cases hx : strFilterActive sop
        · rfl
        · exact absurd hx hs
      by_cases hcut : n < (variantsByGenePipeline docs g).length
      · have heq : api_get_variants_by_gene (.ok docs) g sop n
            = Except.ok (if ((variantsByGenePipeline docs g).take n).isEmpty
                then ApiResponse.httpError 404
                else ApiResponse.ok ((variantsByGenePipeline docs g).take n)) := by
          simp [api_get_variants_by_gene, hs', find_variants_by_gene, hcut]
        rw [heq]
        exact apiOkLength_wrap _ n (List.length_take_le n _)
      · have heq : api_get_variants_by_gene (.ok docs) g sop n
            = Except.ok (if (variantsByGenePipeline docs g).isEmpty
                then ApiResponse.httpError 404
                else ApiResponse.ok (variantsByGenePipeline docs g)) := by
          simp [api_get_variants_by_gene, hs', find_variants_by_gene, hcut]
        rw [heq]
        exact apiOkLength_wrap _ n (Nat.le_of_not_lt hcut)

/-- Witness for `c4_limit_semantics` at a concrete input. -/
theorem c4_limit_semantics_witness :
    apiDefaultLimit = 100
    ∧ apiMaxLimit = 1000
    ∧ 100 ≤ apiMaxLimit
    ∧ (variantsBySignificancePipeline [docEx] "Pathogenic" 100).length ≤ 100
    ∧ (geneSigPipeline [docEx] "BRCA1" "Pathogenic" 100).length ≤ 100
    ∧ (byPositionPipeline [docEx] "17" 43045700 100).length ≤ 100
    ∧ (pathogenicPipeline [docEx] 100).length ≤ 100
    ∧ (multiPipeline [docEx] none none none none none none none 100).length ≤ 100
    ∧ apiOkLength (api_get_variants_by_gene (.ok [docEx]) "BRCA1" none 100) ≤ 100 :=
  c4_limit_semantics [docEx] "BRCA1" "Pathogenic" "17" 43045700 none none none
    none none none none none 100 (by decide)

/-- C4, counterexample.  A CNV-by-gene query over a document with 1001
matching CNV elements returns 1001 records: there is no default limit of
100 and no ceiling of 1000 on the CNV (or SV) finding queries. -/
theorem c4_counterexample :
    apiMaxLimit < (cnvByGenePipeline [bigCNVDoc] "GENE1").length := by
  have hpre : docAnyCNV bigCNVDoc (fun e => decide ("GENE1" ∈ e.genes_affected)) = true := by
    unfold docAnyCNV bigCNVDoc arrGetD
    exact replicate_any 1001 cnvEx _ (by norm_num) (by decide)
  have hfil : [bigCNVDoc].filter
      (fun d => docAnyCNV d (fun e => decide ("GENE1" ∈ e.genes_affected)))
        = [bigCNVDoc] := by
    rw [List.filter_cons]
    simp [hpre]
  have harr : arrGetD bigCNVDoc.copy_number_variants = List.replicate 1001 cnvEx := rfl
  unfold cnvByGenePipeline
  rw [hfil]
  simp only [List.flatMap_cons, List.flatMap_nil, List.append_nil, harr,
    List.map_replicate]
  rw [replicate_filter 1001 (bigCNVDoc, cnvEx) _ (by decide),
      List.map_replicate, List.length_replicate]
  norm_num [apiMaxLimit]

lemma group_counts_sum (l : List String) :
    ((groupCounts l).map Prod.snd).sum = l.length := by
  unfold groupCounts sortedKeys
  rw [List.map_map]
  have hcomp : (Prod.snd ∘ fun k => (k, l.count k)) = fun k => l.count k := rfl
  rw [hcomp,
      ((Finset.sort_perm_toList (· ≤ ·) l.toFinset).map (fun k => l.count k)).sum_eq,
      Finset.sum_to_list]
  simp

lemma length_flatMap_map {β : Type} (docs : List SampleDoc) (f : SampleDoc → Variant → β) :
    (docs.flatMap (fun d => (arrGetD d.variants).map (f d))).length
      = (docs.map (fun d => (arrGetD d.variants).length)).sum := by
  induction docs with
  | nil => rfl
  | cons d l ih => simp [List.flatMap_cons, ih]

lemma stats_ok_of_all_present (docs : List SampleDoc)
    (h : ∀ d ∈ docs, d.variants.isSome = true) :
    get_variant_stats (.ok docs) = .ok (some (computeStats docs)) := by
  have hnone : docs.any (fun d => d.variants.isNone) = false := by
    rw [List.any_eq_false]
    intro d hd
    obtain ⟨x, hx⟩ := Option.isSome_iff_exists.mp (h d hd)
    simp [hx]
  unfold get_variant_stats
  simp [hnone]

/-- C7 (amended).  Over a corpus in which every document carries a
`variants` array, the stats call succeeds, `total_variants` is the sum of
the per-document array lengths, and the per-clinical-significance counts
sum to `total_variants`.  A document *lacking* the array does not count as
zero: the `$size` stage has no `$ifNull` (unlike the CNV/SV totals), so
the whole stats call fails and returns the empty dict — see the
counterexample. -/
theorem c7_stats_additivity (docs : List SampleDoc)
    (h : ∀ d ∈ docs, d.variants.isSome = true) :
    get_variant_stats (.ok docs) = .ok (some (computeStats docs))
    ∧ (computeStats docs).total_variants
        = (docs.map (fun d => (arrGetD d.variants).length)).sum
    ∧ ((computeStats docs).significance_counts.map Prod.snd).sum
        = (computeStats docs).total_variants := by
  refine ⟨stats_ok_of_all_present docs h, rfl, ?_⟩
  show ((groupCounts (allSignificances docs)).map Prod.snd).sum
      = (docs.map (fun d => (arrGetD d.variants).length)).sum
  rw [group_counts_sum]
  unfold allSignificances
  exact length_flatMap_map docs (fun _ v => v.clinical_significance)

/-- Witness for `c7_stats_additivity` at a concrete input. -/
theorem c7_stats_additivity_witness :
    get_variant_stats (.ok [docEx]) = .ok (some (computeStats [docEx]))
    ∧ (computeStats [docEx]).total_variants
        = ([docEx].map (fun d => (arrGetD d.variants).length)).sum
    ∧ ((computeStats [docEx]).significance_counts.map Prod.snd).sum
        = (computeStats [docEx]).total_variants :=
  c7_stats_additivity [docEx] (by decide)

/-- C7, counterexample.  On a corpus containing a document without a
`variants` array the stats call returns the empty dict (`none`) rather
than counting the absent array as length zero (which would give the
populated stats record with `total_variants = 0`). -/
theorem c7_counterexample :
    get_variant_stats (.ok [statsBadDoc]) = .ok none
    ∧ (Except.ok none : Except Unit (Option VariantStats))
        ≠ Except.ok (some (computeStats [statsBadDoc])) := by
  constructor
  · rfl
  · intro h
    exact Option.noConfusion (Except.ok.inj h)

lemma pdateLe_nextDay (d : PDate) : pdateLe d (nextDay d) = true := by
  unfold nextDay
  by_cases h1 : d.day < daysInMonth d.year d.month
  · rw [if_pos h1]
    simp [pdateLe]
  · rw [if_neg h1]
    by_cases h2 : d.month < 12
    · rw [if_pos h2]
      simp [pdateLe]
    · rw [if_neg h2]
      simp [pdateLe]

lemma pdateLe_excl (today : PDate) (b : Nat) (hv : isValidPDate today = true)
    (hy : b + 3 ≤ today.year) :
    pdateLe (replaceYear today (today.year - b - 1))
      (nextDay (replaceYear today (today.year - b - 2))) = false := by
  have hm : today.month ≤ 12 := by
    unfold isValidPDate at hv
    simp only [Bool.and_eq_true, decide_eq_true_eq] at hv
    omega
  unfold replaceYear nextDay
  by_cases h1 : today.day < daysInMonth (today.year - b - 2) today.month
  · rw [if_pos h1]
    simp only [pdateLe, decide_eq_false_iff_not, Bool.or_eq_false_iff,
      Bool.and_eq_false_iff]
    simp
    omega
  · rw [if_neg h1]
    by_cases h2 : today.month < 12
    · rw [if_pos h2]
      simp [pdateLe]
      omega
    · rw [if_neg h2]
      simp [pdateLe]
      omega

lemma replaceYear_valid (d : PDate) (y : Nat) (hv : isValidPDate d = true)
    (hfeb : ¬(d.month = 2 ∧ d.day = 29)) : isValidPDate (replaceYear d y) = true := by
  unfold isValidPDate at hv
  unfold isValidPDate replaceYear
  simp only [Bool.and_eq_true, decide_eq_true_eq] at hv ⊢
  obtain ⟨⟨⟨h1, h2⟩, h3⟩, h4⟩ := hv
  refine ⟨⟨⟨h1, h2⟩, h3⟩, ?_⟩
  by_cases hm2 : d.month = 2
  · rw [hm2] at h4 ⊢
    have hne : d.day ≠ 29 := fun hd => hfeb ⟨hm2, hd⟩
    unfold daysInMonth at h4 ⊢
    rw [if_pos rfl] at h4 ⊢
    split at h4 <;> split <;> omega
  · have heq : daysInMonth y d.month = daysInMonth d.year d.month := by
      unfold daysInMonth
      rw [if_neg hm2, if_neg hm2]
    rw [heq]
    exact h4

/-- C5.  The demographic resolver converts age bounds to date-of-birth
bounds exactly as the source does (`age_min` gives
`date_of_birth <= today.replace(year=today.year-age_min)` and `age_max`
gives `date_of_birth >= today.replace(year=today.year-age_max-1)`), those
`replace` calls cannot raise for a valid non-Feb-29 `today`, and
consequently a patient born one day after `today` minus `(age_max+1)`
years is included when filtering by `age_max`, while a patient born one
day after `today` minus `(age_max+2)` years (one year earlier) is
excluded. -/
theorem c5_age_bound_conversion (db : RelDB) (today : PDate) (aminN amaxN b : Nat)
    (x sid pid : Int)
    (hv : isValidPDate today = true) (hfeb : ¬(today.month = 2 ∧ today.day = 29))
    (hy : b + 3 ≤ today.year) :
    (x ∈ get_sample_ids_by_patient_details db today (some aminN) (some amaxN) none
      ↔ ∃ s ∈ db.samples, ∃ p ∈ db.patients,
          p.patient_id = s.patient_id
          ∧ pdateLe p.date_of_birth (replaceYear today (today.year - aminN)) = true
          ∧ pdateLe (replaceYear today (today.year - amaxN - 1)) p.date_of_birth = true
          ∧ x = s.sample_id)
    ∧ isValidPDate (replaceYear today (today.year - b - 1)) = true
    ∧ sid ∈ get_sample_ids_by_patient_details
        ⟨[⟨pid, nextDay (replaceYear today (today.year - b - 1)), "F"⟩], [⟨sid, pid⟩]⟩
        today none (some b) none
    ∧ sid ∉ get_sample_ids_by_patient_details
        ⟨[⟨pid, nextDay (replaceYear today (today.year - b - 2)), "F"⟩], [⟨sid, pid⟩]⟩
        today none (some b) none := by
  refine ⟨?_, replaceYear_valid today _ hv hfeb, ?_, ?_⟩
  · unfold get_sample_ids_by_patient_details
    simp only [List.mem_flatMap, List.mem_map, List.mem_filter, Bool.and_eq_true,
      decide_eq_true_eq]
    constructor
    · rintro ⟨s, hs, p, ⟨hp, ⟨⟨hid, hmin⟩, hmax⟩, _⟩, hx⟩
      exact ⟨s, hs, p, hp, hid, hmin, hmax, hx.symm⟩
    · rintro ⟨s, hs, p, hp, hid, hmin, hmax, hx⟩
      exact ⟨s, hs, p, ⟨hp, ⟨⟨hid, hmin⟩, hmax⟩, trivial⟩, hx.symm⟩
  · unfold get_sample_ids_by_patient_details
    simp [pdateLe_nextDay]
  · unfold get_sample_ids_by_patient_details
    simp [pdateLe_excl today b hv hy]

/-- Witness for `c5_age_bound_conversion` at a concrete input
(today = 2024-06-15, `age_max` = 40). -/
theorem c5_age_bound_conversion_witness :
    (3 ∈ get_sample_ids_by_patient_details ⟨[⟨7, ⟨1980, 1, 1⟩, "F"⟩], [⟨3, 7⟩]⟩
        ⟨2024, 6, 15⟩ (some 10) (some 50) none
      ↔ ∃ s ∈ [(⟨3, 7⟩ : SampleRow)], ∃ p ∈ [(⟨7, ⟨1980, 1, 1⟩, "F"⟩ : PatientRow)],
          p.patient_id = s.patient_id
          ∧ pdateLe p.date_of_birth (replaceYear ⟨2024, 6, 15⟩ (2024 - 10)) = true
          ∧ pdateLe (replaceYear ⟨2024, 6, 15⟩ (2024 - 50 - 1)) p.date_of_birth = true
          ∧ (3 : Int) = s.sample_id)
    ∧ isValidPDate (replaceYear ⟨2024, 6, 15⟩ (2024 - 40 - 1)) = true
    ∧ (3 : Int) ∈ get_sample_ids_by_patient_details
        ⟨[⟨7, nextDay (replaceYear ⟨2024, 6, 15⟩ (2024 - 40 - 1)), "F"⟩], [⟨3, 7⟩]⟩
        ⟨2024, 6, 15⟩ none (some 40) none
    ∧ (3 : Int) ∉ get_sample_ids_by_patient_details
        ⟨[⟨7, nextDay (replaceYear ⟨2024, 6, 15⟩ (2024 - 40 - 2)), "F"⟩], [⟨3, 7⟩]⟩
        ⟨2024, 6, 15⟩ none (some 40) none :=
  c5_age_bound_conversion ⟨[⟨7, ⟨1980, 1, 1⟩, "F"⟩], [⟨3, 7⟩]⟩ ⟨2024, 6, 15⟩ 10 50 40
    3 3 7 (by decide) (by decide) (by norm_num)

/-- C6.  In `combined_query`, when any demographic filter is supplied and
the resolver returns the empty sample-id list, the endpoint raises the
documented 404 empty-result outcome and the document matcher is never
invoked (matcher call count 0, and the outcome is independent of the
document-store state); when no demographic filter is supplied, the
resolver is not invoked (resolver call count 0) and the matcher runs with
`sample_ids = None`. -/
theorem c6_empty_short_circuit (db : RelDB) (today : PDate) (st : MongoState)
    (gop sop : Option String) (amin amax : Option Nat) (sx : Option String)
    (cop : Option String) (pmin pmax : Option Int) (rg : Option String)
    (limit : Nat) :
    ((amin.isSome || amax.isSome || sx.isSome) = true →
      get_sample_ids_by_patient_details db today amin amax sx = [] →
      combined_query db today st gop sop amin amax sx cop pmin pmax rg limit
        = (.ok (.httpError 404), ⟨1, 0⟩))
    ∧ ((amin.isSome || amax.isSome || sx.isSome) = false →
      combined_query db today st gop sop amin amax sx cop pmin pmax rg limit
        = (wrapMatcherResult (find_variants_by_multiple_filters st none gop sop cop
            pmin pmax rg limit), ⟨0, 1⟩)) := by
  constructor
  · intro hdemo hres
    unfold combined_query
    rw [if_pos hdemo, hres]
    rfl
  · intro hdemo
    unfold combined_query
    rw [if_neg (by simp [hdemo])]

/-- Witness for `c6_empty_short_circuit` at concrete inputs: an empty
relational store with `age_min=30` short-circuits to a 404 with zero
matcher calls, and a call without demographic filters performs zero
resolver calls. -/
theorem c6_empty_short_circuit_witness :
    combined_query ⟨[], []⟩ ⟨2024, 6, 15⟩ (.ok [docEx]) none none (some 30) none none
        none none none none 100
      = (.ok (.httpError 404), ⟨1, 0⟩)
    ∧ combined_query ⟨[], []⟩ ⟨2024, 6, 15⟩ (.ok [docEx]) none none none none none
        none none none none 100
      = (wrapMatcherResult (find_variants_by_multiple_filters (.ok [docEx]) none none
          none none none none none 100), ⟨0, 1⟩) := by
  constructor
  · exact (c6_empty_short_circuit ⟨[], []⟩ ⟨2024, 6, 15⟩ (.ok [docEx]) none none
      (some 30) none none none none none none 100).1 (by decide) (by decide)
  · exact (c6_empty_short_circuit ⟨[], []⟩ ⟨2024, 6, 15⟩ (.ok [docEx]) none none
      none none none none none none none 100).2 (by decide)

lemma multi_pipeline_min_gt_max (docs : List SampleDoc) (ids : Option (List Int))
    (gop sop cop rg : Option String) (limit : Nat) (pmin pmax : Int)
    (h : pmax < pmin) :
    multiPipeline docs ids gop sop cop (some pmin) (some pmax) rg limit = [] := by
  have hfalse : ∀ v : Variant,
      multiElemMatch gop sop cop (some pmin) (some pmax) v = false := by
    intro v
    have hpos : (decide (pmin ≤ v.position) && decide (v.position ≤ pmax)) = false := by
      by_cases hp : pmin ≤ v.position
      · have : ¬(v.position ≤ pmax) := by omega
        simp [this]
      · simp [hp]
    simp only [multiElemMatch, hpos, Bool.and_false]
  unfold multiPipeline
  have hnil : (((docs.filter (multiDocMatch ids gop sop cop (some pmin) (some pmax) rg)).flatMap
      (fun d => (arrGetD d.variants).map (fun v => (d, v)))).filter
      (fun dv => multiElemMatch gop sop cop (some pmin) (some pmax) dv.2)) = [] :=
    List.filter_eq_nil_iff.mpr (fun dv _ => by simp [hfalse dv.2])
  rw [hnil]
  simp

/-- C8 (amended).  A positional range with `position_min > position_max`
is *not* rejected before a remote call: no validation exists, the range is
passed to the document store as an unsatisfiable element condition, the
matcher is invoked (one matcher call), the query returns zero records, and
the endpoint reports the ordinary no-match 404 rather than a validation
failure. -/
theorem c8_no_range_validation (db : RelDB) (today : PDate) (docs : List SampleDoc)
    (ids : Option (List Int)) (gop sop cop rg : Option String) (limit : Nat)
    (pmin pmax : Int) (h : pmax < pmin) :
    multiPipeline docs ids gop sop cop (some pmin) (some pmax) rg limit = []
    ∧ combined_query db today (.ok docs) gop sop none none none cop (some pmin)
        (some pmax) rg limit
      = (.ok (.httpError 404), ⟨0, 1⟩) := by
  refine ⟨multi_pipeline_min_gt_max docs ids gop sop cop rg limit pmin pmax h, ?_⟩
  unfold combined_query
  rw [if_neg (by simp)]
  have heq : find_variants_by_multiple_filters (.ok docs) none gop sop cop (some pmin)
      (some pmax) rg limit = Except.ok [] := by
    show Except.ok (multiPipeline docs none gop sop cop (some pmin) (some pmax) rg limit)
      = Except.ok []
    rw [multi_pipeline_min_gt_max docs none gop sop cop rg limit pmin pmax h]
  rw [heq]
  rfl

/-- Witness for `c8_no_range_validation` at a concrete input. -/
theorem c8_no_range_validation_witness :
    multiPipeline [docEx] none none none none (some 10) (some 5) none 100 = []
    ∧ combined_query ⟨[], []⟩ ⟨2024, 6, 15⟩ (.ok [docEx]) none none none none none
        none (some 10) (some 5) none 100
      = (.ok (.httpError 404), ⟨0, 1⟩) :=
  c8_no_range_validation ⟨[], []⟩ ⟨2024, 6, 15⟩ [docEx] none none none none none 100
    10 5 (by norm_num)

/-- C8, counterexample.  With `position_min = 10 > 5 = position_max` the
combined query still performs one matcher call (a remote call *is* issued)
and terminates with the ordinary no-match 404, not a pre-call validation
rejection. -/
theorem c8_counterexample :
    (combined_query ⟨[], []⟩ ⟨2024, 6, 15⟩ (.ok [docEx]) none none none none none
        none (some 10) (some 5) none 100).2.matcherCalls = 1
    ∧ (combined_query ⟨[], []⟩ ⟨2024, 6, 15⟩ (.ok [docEx]) none none none none none
        none (some 10) (some 5) none 100).1 = .ok (.httpError 404) := by
  exact ⟨rfl, rfl⟩
